import Mathlib

/-!
Verification of the storybook viewer and export pipeline
(`components/StorybookViewer.tsx`).

The viewer's text values (JavaScript strings) are modelled as `List Char`,
with executable counterparts of the JavaScript string primitives the
component uses (`split('\n')`, `trim()`, `startsWith`, `substring(n)`,
`toUpperCase()`).  Pixel heights (JavaScript numbers) are modelled as
rationals.  Each definition is annotated with the source location it
embeds.
-/

namespace Storybook

/-- Model of JavaScript `String.prototype.split('\n')`: splits at every
newline character, keeping empty segments, and yields one (possibly empty)
segment even for the empty string. -/
def splitLines : List Char → List (List Char)
  | [] => [[]]
  | c :: rest =>
    match splitLines rest with
    | [] => [[]]
    | line :: lines =>
      if c = '\n' then [] :: line :: lines else (c :: line) :: lines

/-- Model of JavaScript `String.prototype.trim()`: removes whitespace from
both ends of the string. -/
def jsTrim (s : List Char) : List Char :=
  ((s.dropWhile Char.isWhitespace).reverse.dropWhile Char.isWhitespace).reverse

/-- Model of JavaScript `s.startsWith(pat)`. -/
def jsStartsWith : List Char → List Char → Bool
  | _, [] => true
  | [], _ :: _ => false
  | c :: cs, p :: ps => c = p && jsStartsWith cs ps

/-- Model of JavaScript `String.prototype.toUpperCase()` on the ASCII
format names used by the component. -/
def jsToUpperCase (s : List Char) : List Char :=
  s.map Char.toUpper

/-!
## Pagination engine

`calculatePages` (StorybookViewer.tsx lines 91-116) measures the hidden
copy of the rendered content and derives the page count.  Inside the
`contentAreaHeight > 0` guard the source computes
`pages = Math.ceil(contentHeight / contentAreaHeight)` and stores
`pages > 0 ? pages : 1`.
-/

/-- The page-count computation of `calculatePages`
(StorybookViewer.tsx lines 111-113): `Math.ceil` of the content height
over the viewport content-area height, replaced by `1` when the result is
not positive. -/
def calculatePages (contentHeight contentAreaHeight : ℚ) : ℤ :=
  let pages := ⌈contentHeight / contentAreaHeight⌉
  if pages > 0 then pages else 1

/-!
## Spread navigator

`totalSpreads` (line 133), `handleNextPage` (lines 143-147) and
`handlePrevPage` (lines 149-153).  `currentPage` is `0` on the cover and
`k` on spread `k`.
-/

/-- `totalSpreads = Math.ceil(totalContentPages / 2)`
(StorybookViewer.tsx line 133); on naturals the ceiling of `n / 2` is
`(n + 1) / 2`. -/
def totalSpreads (totalContentPages : ℕ) : ℕ :=
  (totalContentPages + 1) / 2

/-- `handleNextPage` (StorybookViewer.tsx lines 143-147): advances the
spread index whenever `currentPage <= totalSpreads`. -/
def handleNextPage (spreads currentPage : ℕ) : ℕ :=
  if currentPage ≤ spreads then currentPage + 1 else currentPage

/-- `handlePrevPage` (StorybookViewer.tsx lines 149-153): steps back
whenever `currentPage > 0`. -/
def handlePrevPage (currentPage : ℕ) : ℕ :=
  if 0 < currentPage then currentPage - 1 else currentPage

/-- A navigation request: the Next or the Previous button. -/
inductive NavOp where
  | next
  | prev
deriving DecidableEq

/-- One navigation step of the viewer. -/
def navStep (spreads currentPage : ℕ) : NavOp → ℕ
  | NavOp.next => handleNextPage spreads currentPage
  | NavOp.prev => handlePrevPage currentPage

/-- The spread index after a sequence of navigation requests. -/
def navigate (spreads : ℕ) (ops : List NavOp) (start : ℕ) : ℕ :=
  ops.foldl (fun p op => navStep spreads p op) start

/-!
## Page visibility

`leftPageNum`/`rightPageNum` (lines 338-339) and the right-page render
guard `rightPageNum <= totalContentPages` (line 412), which is only
reached inside the `currentPage > 0` branch (line 397).
-/

/-- `leftPageNum = (currentPage - 1) * 2 + 1` (StorybookViewer.tsx
line 338). -/
def leftPageNum (currentPage : ℤ) : ℤ :=
  (currentPage - 1) * 2 + 1

/-- `rightPageNum = (currentPage - 1) * 2 + 2` (StorybookViewer.tsx
line 339). -/
def rightPageNum (currentPage : ℤ) : ℤ :=
  (currentPage - 1) * 2 + 2

/-- Whether the right page of the current spread is rendered: the content
spread is shown at all only when `currentPage > 0` (line 397), and within
it the right page renders only under the guard
`rightPageNum <= totalContentPages` (line 412). -/
def rightPageRendered (currentPage totalContentPages : ℤ) : Bool :=
  decide (0 < currentPage) && decide (rightPageNum currentPage ≤ totalContentPages)

/-!
## The docx capability loader

`loadDocxScript` (StorybookViewer.tsx lines 30-70) manages the
module-level singleton `docxPromise` (line 28) and the global
`window.docx`.  Its shared state and the shape of one call are embedded
below; the `onload`/`onerror` callbacks of the injected script element
become explicit transitions.
-/

/-- Shared state of the docx script loader: whether `window.docx` is
available and whether the module-level `docxPromise` slot is occupied
(StorybookViewer.tsx lines 28, 32, 37). -/
structure DocxLoaderState where
  docxAvailable : Bool
  docxPromise : Bool
deriving DecidableEq

/-- What one call to `loadDocxScript` does besides updating the state. -/
inductive DocxLoadAction where
  | resolveImmediately
  | joinInFlight
  | startFetch
deriving DecidableEq

/-- `loadDocxScript` (StorybookViewer.tsx lines 30-70): resolves at once
when `window.docx` exists (lines 32-34), returns the in-flight promise
when the slot is occupied (lines 37-39), and otherwise fills the slot and
starts fetching the script (lines 42-69). -/
def loadDocxScript (s : DocxLoaderState) : DocxLoaderState × DocxLoadAction :=
  if s.docxAvailable then (s, DocxLoadAction.resolveImmediately)
  else if s.docxPromise then (s, DocxLoadAction.joinInFlight)
  else ({ s with docxPromise := true }, DocxLoadAction.startFetch)

/-- The `script.onerror` handler (StorybookViewer.tsx lines 57-64):
resets the shared `docxPromise` slot to `null` and rejects. -/
def scriptOnError (s : DocxLoaderState) : DocxLoaderState :=
  { s with docxPromise := false }

/-- The `script.onload` handler (StorybookViewer.tsx lines 47-55): when
the fetched script defined `window.docx` the promise resolves and the
slot keeps the settled promise; otherwise the slot is reset to allow a
retry. -/
def scriptOnLoad (s : DocxLoaderState) (docxDefined : Bool) : DocxLoaderState :=
  if docxDefined then { s with docxAvailable := true }
  else { s with docxPromise := false }

/-!
## Export pipeline control

`handleExport` (StorybookViewer.tsx lines 155-170) drives every export:
it sets the `exporting` indicator, runs the per-format serializer inside
`try`, logs and alerts on failure in `catch`, and clears the indicator in
`finally`.  The `exporting` React state (line 83) is a single
`string | null` slot, displayed by the overlay of lines 358-362.
-/

/-- The indicator text set at the start of `handleExport`
(StorybookViewer.tsx line 156). -/
def exportingMessage (format : List Char) : List Char :=
  "Exporting to ".data ++ jsToUpperCase format ++ "...".data

/-- The alert text of the `catch` branch of `handleExport`
(StorybookViewer.tsx line 166). -/
def exportFailureMessage (format : List Char) : List Char :=
  "Failed to export to ".data ++ format ++ ". See console for details.".data

/-- The entry behavior of `handleExport` (StorybookViewer.tsx
lines 155-156): regardless of the current value of the `exporting` slot,
the handler overwrites it with the new format's message and proceeds into
the `try` block.  The returned flag records that the export was begun;
the source contains no check of the previous `exporting` value. -/
def handleExportEnter (exporting : Option (List Char)) (format : List Char) :
    Option (List Char) × Bool :=
  (some (exportingMessage format), true)

/-- How many "exporting" indicators the UI shows for a given value of the
`exporting` slot: the overlay of StorybookViewer.tsx lines 358-362 renders
one message when the slot is non-null and none otherwise. -/
def exportingIndicators (exporting : Option (List Char)) : ℕ :=
  match exporting with
  | none => 0
  | some _ => 1

/-- Observable events of one `handleExport` run. -/
inductive ExportEvent where
  | setExporting (value : Option (List Char))
  | runExport (format : List Char)
  | logFailure (format : List Char)
  | alertUser (message : List Char)
deriving DecidableEq

/-- The event trace of `handleExport` (StorybookViewer.tsx lines 155-170)
for a run whose inner serializer either succeeds or throws: set the
indicator (line 156), run the serializer (lines 158-163), on failure log
and alert (lines 164-166), and clear the indicator in `finally`
(lines 167-169). -/
def handleExport (format : List Char) (succeeds : Bool) : List ExportEvent :=
  [ExportEvent.setExporting (some (exportingMessage format)),
   ExportEvent.runExport format]
  ++ (if succeeds then []
      else [ExportEvent.logFailure format,
            ExportEvent.alertUser (exportFailureMessage format)])
  ++ [ExportEvent.setExporting none]

/-- The value of the `exporting` slot after a list of events, starting
from a given value. -/
def exportingAfter (start : Option (List Char)) (events : List ExportEvent) :
    Option (List Char) :=
  events.foldl
    (fun st e =>
      match e with
      | ExportEvent.setExporting v => v
      | _ => st)
    start

/-- Modelled from the spec: the claim that a second export invocation
arriving while one is in flight is rejected at the pipeline level, stated
about the entry behavior of `handleExport` — when the `exporting` slot is
occupied, the new invocation would not begin. -/
def pipelineRejectsBusyInvocation : Prop :=
  ∀ (exporting : Option (List Char)) (format : List Char),
    exporting.isSome = true → (handleExportEnter exporting format).2 = false

/-!
## DOCX export

`exportToDOCX` (StorybookViewer.tsx lines 246-299) filters out cover-image
lines (line 266) and converts each remaining line into one paragraph of
the document (lines 268-283).
-/

/-- The marker of the filter of StorybookViewer.tsx line 266. -/
def coverImageMarker : List Char :=
  "![Front Cover]".data

/-- One paragraph of the DOCX content, as built by `exportToDOCX`. -/
inductive DocxBlock where
  | heading1 (text : List Char)
  | heading2 (text : List Char)
  | heading3 (text : List Char)
  | body (text : List Char)
  | spacer
deriving DecidableEq

/-- The per-line conversion of `exportToDOCX` (StorybookViewer.tsx
lines 268-283): the trimmed line becomes a heading of rank one, two or
three when it starts with the corresponding marker (with the marker
removed and the remainder trimmed), an empty trimmed line becomes a
spacer paragraph, and any other line becomes a body paragraph of its
trimmed text. -/
def docxLineBlock (line : List Char) : DocxBlock :=
  let trimmedLine := jsTrim line
  if jsStartsWith trimmedLine "# ".data then
    DocxBlock.heading1 (jsTrim (trimmedLine.drop 2))
  else if jsStartsWith trimmedLine "## ".data then
    DocxBlock.heading2 (jsTrim (trimmedLine.drop 3))
  else if jsStartsWith trimmedLine "### ".data then
    DocxBlock.heading3 (jsTrim (trimmedLine.drop 4))
  else if trimmedLine.isEmpty then DocxBlock.spacer
  else DocxBlock.body trimmedLine

/-- The filter of StorybookViewer.tsx line 266: it drops every line whose
raw (untrimmed) text starts with `![Front Cover]`. -/
def docxFilteredLines (lines : List (List Char)) : List (List Char) :=
  lines.filter (fun line => ! jsStartsWith line coverImageMarker)

/-- The content paragraphs of `exportToDOCX` (StorybookViewer.tsx
lines 266-283): split the manuscript body at newlines, drop the
cover-image lines, and convert each remaining line. -/
def docxContentBlocks (bookContent : List Char) : List DocxBlock :=
  (docxFilteredLines (splitLines bookContent)).map docxLineBlock

/-- Modelled from the spec: a line that is solely an embedded cover-image
reference, i.e. the whole line is the image markup
`![Front Cover](...)`. -/
def isSolelyCoverImageRef (line : List Char) : Bool :=
  jsStartsWith line "![Front Cover](".data && jsStartsWith line.reverse ")".data

/-- Modelled from the spec: the DOCX line mapping as the claim words it,
filtering out only the lines that are solely an embedded cover-image
reference and converting every other line. -/
def claimDocxBlocks (bookContent : List Char) : List DocxBlock :=
  ((splitLines bookContent).filter (fun line => ! isSolelyCoverImageRef line)).map
    docxLineBlock

/-!
## PDF export

`exportToPDF` (StorybookViewer.tsx lines 172-244) flows the manuscript
body line by line down an A4 page.  The loop body (lines 216-240) is
embedded as one step function; the wrapping performed by
`pdf.splitTextToSize` (an external library call whose result depends on
the current font size and the fixed content width) is a parameter.
-/

/-- The heading level recognized for a line by the prefix checks of
StorybookViewer.tsx lines 220-222, applied to the trimmed line:
`1`, `2` or `3` for the three heading markers and `0` for body text. -/
def pdfHeadingKind (line : List Char) : ℕ :=
  let text := jsTrim line
  if jsStartsWith text "# ".data then 1
  else if jsStartsWith text "## ".data then 2
  else if jsStartsWith text "### ".data then 3
  else 0

/-- The text written for a line (StorybookViewer.tsx lines 217-222): the
trimmed line with a recognized heading marker removed. -/
def pdfText (line : List Char) : List Char :=
  let text := jsTrim line
  if jsStartsWith text "# ".data then text.drop 2
  else if jsStartsWith text "## ".data then text.drop 3
  else if jsStartsWith text "### ".data then text.drop 4
  else text

/-- The font size chosen for a line (StorybookViewer.tsx line 224):
18 for a level-1 heading, 14 for a level-2 heading, 12 for a level-3
heading and 12 for body text. -/
def pdfFontSize (line : List Char) : ℚ :=
  if pdfHeadingKind line = 1 then 18
  else if pdfHeadingKind line = 2 then 14
  else if pdfHeadingKind line = 3 then 12
  else 12

/-- The font weight chosen for a line (StorybookViewer.tsx line 225):
bold exactly for the three recognized heading levels. -/
def pdfBold (line : List Char) : Bool :=
  decide (pdfHeadingKind line ≠ 0)

/-- The extra vertical space added before a heading that is not at the
top of a page (StorybookViewer.tsx lines 227-228). -/
def pdfBumpedCursor (margin cursorY : ℚ) (line : List Char) : ℚ :=
  if pdfHeadingKind line = 1 ∧ margin < cursorY then cursorY + 20
  else if pdfHeadingKind line = 2 ∧ margin < cursorY then cursorY + 15
  else cursorY

/-- The height of the wrapped text of a line (StorybookViewer.tsx
lines 230-231): the number of wrapped rows times the font size times
1.15. -/
def pdfTextHeight (wrapCount : ℚ → List Char → ℕ) (line : List Char) : ℚ :=
  (wrapCount (pdfFontSize line) (pdfText line) : ℚ) * (pdfFontSize line * (23 / 20))

/-- The result of writing one line into the PDF column. -/
structure PdfLineResult where
  fontSize : ℚ
  bold : Bool
  addedPage : Bool
  cursorAfter : ℚ
deriving DecidableEq

/-- One iteration of the content loop of `exportToPDF`
(StorybookViewer.tsx lines 216-240): style the line, add heading spacing,
start a new page when `cursorY + textHeight > pageHeight - margin`
(resetting the cursor to the top margin, lines 233-236), write the text
and advance the cursor by the text height (lines 238-239). -/
def pdfStep (pageHeight margin : ℚ) (wrapCount : ℚ → List Char → ℕ)
    (cursorY : ℚ) (line : List Char) : PdfLineResult :=
  { fontSize := pdfFontSize line
    bold := pdfBold line
    addedPage :=
      decide (pageHeight - margin <
        pdfBumpedCursor margin cursorY line + pdfTextHeight wrapCount line)
    cursorAfter :=
      (if pageHeight - margin <
          pdfBumpedCursor margin cursorY line + pdfTextHeight wrapCount line
        then margin
        else pdfBumpedCursor margin cursorY line)
        + pdfTextHeight wrapCount line }

/-- The cursor after flowing a list of lines, starting from a given
cursor position; the loop of StorybookViewer.tsx lines 216-240 runs it
over `bookContent.split('\n')` starting from the top margin of the first
content page (line 213). -/
def pdfFlowFrom (pageHeight margin : ℚ) (wrapCount : ℚ → List Char → ℕ)
    (cursorY : ℚ) (lines : List (List Char)) : ℚ :=
  lines.foldl (fun cy line => (pdfStep pageHeight margin wrapCount cy line).cursorAfter)
    cursorY

/-!
## HTML and Markdown export, and the renderer input

`exportToMD` (StorybookViewer.tsx lines 330-336) wraps `bookContent`
itself in the downloaded blob; the markup renderer receives the same
`bookContent` prop at line 87 (`marked.parse(bookContent)`).
-/

/-- The props of the `StorybookViewer` component (StorybookViewer.tsx
lines 15-22) that the export and render paths read. -/
structure ViewerProps where
  bookContent : List Char
  bookTitle : List Char
  subtitle : List Char
  author : List Char
deriving DecidableEq

/-- The input handed to the markup renderer: StorybookViewer.tsx line 87
calls `marked.parse(bookContent)` on the unmodified prop. -/
def markedParseInput (props : ViewerProps) : List Char :=
  props.bookContent

/-- The bytes of the Markdown export artifact: `exportToMD`
(StorybookViewer.tsx line 331) builds the blob from `bookContent`
itself. -/
def exportToMD (props : ViewerProps) : List Char :=
  props.bookContent

/-!
## Theorems
-/

/-- Claim C1: for every non-negative rendered content extent and every
positive viewport content-area height, `calculatePages` computes
`max(1, ceil(contentHeight / contentAreaHeight))`; in particular
zero-length content yields one page. -/
theorem calculatePages_eq_max_one_ceil (contentHeight contentAreaHeight : ℚ)
    (hh : 0 ≤ contentHeight) (hv : 0 < contentAreaHeight) :
    calculatePages contentHeight contentAreaHeight =
      max 1 ⌈contentHeight / contentAreaHeight⌉ ∧
    calculatePages 0 contentAreaHeight = 1 := by
  constructor
  · have hc : 0 ≤ ⌈contentHeight / contentAreaHeight⌉ :=
      Int.ceil_nonneg (div_nonneg hh hv.le)
    simp only [calculatePages]
    by_cases hpos : 0 < ⌈contentHeight / contentAreaHeight⌉
    · rw [if_pos hpos]
      omega
    · rw [if_neg hpos]
      omega
  · simp only [calculatePages, zero_div, Int.ceil_zero]
    norm_num

/-- Witness for claim C1 at a 600-unit content extent under a 400-unit
viewport, and at empty content. -/
theorem calculatePages_eq_max_one_ceil_witness :
    calculatePages 600 400 = max 1 ⌈(600 : ℚ) / 400⌉ ∧
    calculatePages 0 400 = 1 :=
  calculatePages_eq_max_one_ceil 600 400 (by decide) (by decide)

/-- The spread index can never grow by more than one step past
`spreads + 1`: a single navigation step keeps it at or below
`spreads + 1`. -/
theorem navStep_le (spreads currentPage : ℕ) (op : NavOp)
    (h : currentPage ≤ spreads + 1) :
    navStep spreads currentPage op ≤ spreads + 1 := by
  cases op with
  | next =>
    simp only [navStep, handleNextPage]
    split <;> omega
  | prev =>
    simp only [navStep, handlePrevPage]
    split <;> omega

/-- Navigation from any index at or below `spreads + 1` stays at or below
`spreads + 1`. -/
theorem navigate_le (spreads : ℕ) (ops : List NavOp) :
    ∀ start : ℕ, start ≤ spreads + 1 → navigate spreads ops start ≤ spreads + 1 := by
  induction ops with
  | nil => intro start h; simpa [navigate] using h
  | cons op rest ih =>
    intro start h
    simpa [navigate, List.foldl_cons] using ih _ (navStep_le spreads start op h)

/-- Counterexample to claim C2: with `PageCount = 2` there is one spread,
yet `handleNextPage` at the last spread (index 1) is not a no-op — two
`next` operations from the cover reach index 2, outside
`[0, ceil(PageCount / 2)]`. -/
theorem handleNextPage_escapes_last_spread :
    totalSpreads 2 = 1 ∧
    handleNextPage (totalSpreads 2) 1 = 2 ∧
    navigate (totalSpreads 2) [NavOp.next, NavOp.next] 0 = 2 ∧
    ¬ navigate (totalSpreads 2) [NavOp.next, NavOp.next] 0 ≤ totalSpreads 2 := by
  decide

/-- Claim C2 as amended: `next` takes the cover to spread 1 and spread
`k` to spread `k + 1` whenever `k ≤ ceil(PageCount / 2)` — so it is a
no-op only one step past the last spread — and consequently the spread
index always stays in `[0, ceil(PageCount / 2) + 1]` after any sequence
of `next` and `prev` operations starting from the cover. -/
theorem spreadIndex_bounded (spreads : ℕ) :
    handleNextPage spreads 0 = 1 ∧
    (∀ k, k ≤ spreads → handleNextPage spreads k = k + 1) ∧
    (∀ k, spreads < k → handleNextPage spreads k = k) ∧
    (∀ ops : List NavOp, navigate spreads ops 0 ≤ spreads + 1) := by
  refine ⟨?_, ?_, ?_, ?_⟩
  · simp [handleNextPage]
  · intro k hk
    simp [handleNextPage, hk]
  · intro k hk
    simp [handleNextPage, Nat.not_le.mpr hk]
  · intro ops
    exact navigate_le spreads ops 0 (by omega)

/-- Witness for the amended claim C2 with one spread: `next` advances
from the last spread to index 2 and navigation never exceeds index 2. -/
theorem spreadIndex_bounded_witness :
    handleNextPage 1 0 = 1 ∧
    handleNextPage 1 1 = 1 + 1 ∧
    handleNextPage 1 2 = 2 ∧
    navigate 1 [NavOp.next, NavOp.next, NavOp.next] 0 ≤ 1 + 1 :=
  ⟨(spreadIndex_bounded 1).1,
   (spreadIndex_bounded 1).2.1 1 (by decide),
   (spreadIndex_bounded 1).2.2.1 2 (by decide),
   (spreadIndex_bounded 1).2.2.2 [NavOp.next, NavOp.next, NavOp.next]⟩

/-- Claim C9: `prev` at the cover is a no-op, and from every state where
`next` actually advances, `next` followed by `prev` returns to the
original index. -/
theorem handlePrevPage_inverts_handleNextPage :
    handlePrevPage 0 = 0 ∧
    ∀ (spreads k : ℕ), handleNextPage spreads k ≠ k →
      handlePrevPage (handleNextPage spreads k) = k := by
  refine ⟨by simp [handlePrevPage], ?_⟩
  intro spreads k hk
  by_cases h : k ≤ spreads
  · simp [handleNextPage, handlePrevPage, h]
  · simp [handleNextPage, h] at hk

/-- Witness for claim C9 at the cover with one spread: `next` advances
from the cover, and `prev` undoes it. -/
theorem handlePrevPage_inverts_handleNextPage_witness :
    handlePrevPage 0 = 0 ∧ handlePrevPage (handleNextPage 1 0) = 0 :=
  ⟨handlePrevPage_inverts_handleNextPage.1,
   handlePrevPage_inverts_handleNextPage.2 1 0 (by decide)⟩

/-- Claim C8: for every spread index at least 1 and every page count, the
right logical page is rendered exactly when its page number `2k` is at
most the page count; otherwise the right side stays blank. -/
theorem rightPageRendered_iff (currentPage totalContentPages : ℤ)
    (h : 1 ≤ currentPage) :
    (rightPageRendered currentPage totalContentPages = true ↔
      2 * currentPage ≤ totalContentPages) := by
  simp only [rightPageRendered, rightPageNum, Bool.and_eq_true, decide_eq_true_eq]
  constructor
  · rintro ⟨-, h2⟩
    omega
  · intro h2
    exact ⟨by omega, by omega⟩

/-- Witness for claim C8 at spread 3 of a 5-page book: the right page
(number 6) is not rendered. -/
theorem rightPageRendered_iff_witness :
    ((rightPageRendered 3 5 = true ↔ (2 : ℤ) * 3 ≤ 5) ∧
      rightPageRendered 3 5 = false) :=
  ⟨rightPageRendered_iff 3 5 (by decide), by decide⟩

/-- Counterexample to claim C3: with a PDF export already in flight (the
`exporting` slot holds its message), invoking the Markdown export still
begins at the pipeline level — `handleExport` contains no rejection or
deferral of a busy invocation. -/
theorem handleExportEnter_not_rejected_when_busy :
    (some (exportingMessage "pdf".data)).isSome = true ∧
    (handleExportEnter (some (exportingMessage "pdf".data)) "md".data).2 = true ∧
    ¬ pipelineRejectsBusyInvocation := by
  refine ⟨rfl, rfl, fun h => ?_⟩
  have hmd := h (some (exportingMessage "pdf".data)) "md".data rfl
  simp [handleExportEnter] at hmd

/-- Claim C3 as amended: the pipeline does not guard against a concurrent
invocation — `handleExport` unconditionally begins the export and
overwrites the single `exporting` slot with the new format's message; and
because there is only that one slot, the UI never shows more than one
"exporting" indicator at a time. -/
theorem handleExportEnter_always_begins :
    (∀ (exporting : Option (List Char)) (format : List Char),
      handleExportEnter exporting format = (some (exportingMessage format), true)) ∧
    ∀ exporting : Option (List Char), exportingIndicators exporting ≤ 1 := by
  refine ⟨fun _ _ => rfl, fun e => ?_⟩
  cases e <;> simp [exportingIndicators]

/-- Claim C6: after a failed fetch of the docx script, the shared promise
slot has been reset, so the next call to `loadDocxScript` starts a fresh
fetch (and re-occupies the slot) instead of returning a cached
rejection. -/
theorem loadDocxScript_retries_after_error (s : DocxLoaderState)
    (h : s.docxAvailable = false) :
    (loadDocxScript (scriptOnError s)).2 = DocxLoadAction.startFetch ∧
    (loadDocxScript (scriptOnError s)).1.docxPromise = true := by
  simp [loadDocxScript, scriptOnError, h]

/-- Witness for claim C6 at the state of a failed in-flight load. -/
theorem loadDocxScript_retries_after_error_witness :
    (loadDocxScript (scriptOnError ⟨false, true⟩)).2 = DocxLoadAction.startFetch ∧
    (loadDocxScript (scriptOnError ⟨false, true⟩)).1.docxPromise = true :=
  loadDocxScript_retries_after_error ⟨false, true⟩ rfl

/-- Claim C7: every `handleExport` run first sets the exclusive
"exporting" indicator, and whether the serializer succeeds or throws, the
slot ends cleared; a failing run logs the failure and raises an alert
naming the format. -/
theorem handleExport_indicator_lifecycle :
    ∀ (format : List Char) (start : Option (List Char)),
      (handleExport format true).head? =
        some (ExportEvent.setExporting (some (exportingMessage format))) ∧
      (handleExport format false).head? =
        some (ExportEvent.setExporting (some (exportingMessage format))) ∧
      exportingAfter start (handleExport format true) = none ∧
      exportingAfter start (handleExport format false) = none ∧
      ExportEvent.logFailure format ∈ handleExport format false ∧
      ExportEvent.alertUser (exportFailureMessage format) ∈ handleExport format false := by
  intro format start
  refine ⟨rfl, rfl, rfl, rfl, ?_, ?_⟩ <;> simp [handleExport]

/-- Claim C10: the Markdown export emits the manuscript body unchanged —
identical to the input the markup renderer received for the same
manuscript. -/
theorem exportToMD_eq_markedParseInput :
    ∀ props : ViewerProps, exportToMD props = markedParseInput props :=
  fun _ => rfl

/-- Counterexample to claim C4: the DOCX filter drops every line that
merely starts with `![Front Cover]`, not only lines that are solely an
embedded cover-image reference — the line
`![Front Cover] and some text` is not solely a reference, yet the export
filters it out instead of emitting it as a body paragraph. -/
theorem docxContentBlocks_drops_nonsolely_cover_line :
    docxContentBlocks "![Front Cover] and some text".data = [] ∧
    isSolelyCoverImageRef "![Front Cover] and some text".data = false ∧
    claimDocxBlocks "![Front Cover] and some text".data =
      [DocxBlock.body "![Front Cover] and some text".data] ∧
    docxContentBlocks "![Front Cover] and some text".data ≠
      claimDocxBlocks "![Front Cover] and some text".data := by
  decide

/-- Claim C4 as amended: before document construction each manuscript
line maps as follows — any line whose raw text starts with the embedded
cover-image marker `![Front Cover]` is filtered out entirely (whether or
not the line is solely the reference); every surviving line with a
one/two/three heading marker on its trimmed text becomes a heading of
rank 1/2/3 with the marker stripped, a blank (trimmed-empty) line becomes
a spacer paragraph, and any other line becomes a body paragraph of its
trimmed text. -/
theorem docxLineBlock_cases :
    ∀ (line : List Char) (rest : List (List Char)),
      (jsStartsWith line coverImageMarker = true →
        docxFilteredLines (line :: rest) = docxFilteredLines rest) ∧
      (jsStartsWith line coverImageMarker = false →
        docxFilteredLines (line :: rest) = line :: docxFilteredLines rest) ∧
      (jsStartsWith (jsTrim line) "# ".data = true →
        docxLineBlock line = DocxBlock.heading1 (jsTrim ((jsTrim line).drop 2))) ∧
      (jsStartsWith (jsTrim line) "# ".data = false →
        jsStartsWith (jsTrim line) "## ".data = true →
        docxLineBlock line = DocxBlock.heading2 (jsTrim ((jsTrim line).drop 3))) ∧
      (jsStartsWith (jsTrim line) "# ".data = false →
        jsStartsWith (jsTrim line) "## ".data = false →
        jsStartsWith (jsTrim line) "### ".data = true →
        docxLineBlock line = DocxBlock.heading3 (jsTrim ((jsTrim line).drop 4))) ∧
      (jsStartsWith (jsTrim line) "# ".data = false →
        jsStartsWith (jsTrim line) "## ".data = false →
        jsStartsWith (jsTrim line) "### ".data = false →
        (jsTrim line).isEmpty = true →
        docxLineBlock line = DocxBlock.spacer) ∧
      (jsStartsWith (jsTrim line) "# ".data = false →
        jsStartsWith (jsTrim line) "## ".data = false →
        jsStartsWith (jsTrim line) "### ".data = false →
        (jsTrim line).isEmpty = false →
        docxLineBlock line = DocxBlock.body (jsTrim line)) := by
  intro line rest
  refine ⟨?_, ?_, ?_, ?_, ?_, ?_, ?_⟩
  · intro h1
    simp [docxFilteredLines, List.filter_cons, h1]
  · intro h1
    simp [docxFilteredLines, List.filter_cons, h1]
  · intro h1
    simp [docxLineBlock, h1]
  · intro h1 h2
    simp [docxLineBlock, h1, h2]
  · intro h1 h2 h3
    simp [docxLineBlock, h1, h2, h3]
  · intro h1 h2 h3 h4
    simp [docxLineBlock, h1, h2, h3, h4]
  · intro h1 h2 h3 h4
    simp [docxLineBlock, h1, h2, h3, h4]

/-- Witness for the amended claim C4 at the line `  ## Chapter 1 `: the
filter keeps it and it becomes a rank-2 heading with the marker stripped
and the text trimmed. -/
theorem docxLineBlock_cases_witness :
    docxFilteredLines ["  ## Chapter 1 ".data] =
      "  ## Chapter 1 ".data :: docxFilteredLines [] ∧
    docxLineBlock "  ## Chapter 1 ".data =
      DocxBlock.heading2 (jsTrim ((jsTrim "  ## Chapter 1 ".data).drop 3)) ∧
    jsTrim ((jsTrim "  ## Chapter 1 ".data).drop 3) = "Chapter 1".data :=
  ⟨(docxLineBlock_cases "  ## Chapter 1 ".data []).2.1 (by decide),
   (docxLineBlock_cases "  ## Chapter 1 ".data []).2.2.2.1 (by decide) (by decide),
   by decide⟩

/-- Claim C5: each line flowed into the PDF column gets the style of its
recognized heading level (size 18/14/12 bold for levels 1/2/3, size 12
regular for everything else, unmatched prefixes included), a new page
starts exactly when the line's wrapped text height exceeds the column
height remaining below the (possibly heading-spaced) cursor, the cursor
restarts from the top margin on a page break, and the flow consumes the
lines one by one. -/
theorem pdfStep_spec :
    ∀ (pageHeight margin : ℚ) (wrapCount : ℚ → List Char → ℕ)
      (cursorY : ℚ) (line : List Char) (rest : List (List Char)),
      (pdfHeadingKind line = 1 →
        (pdfStep pageHeight margin wrapCount cursorY line).fontSize = 18 ∧
        (pdfStep pageHeight margin wrapCount cursorY line).bold = true) ∧
      (pdfHeadingKind line = 2 →
        (pdfStep pageHeight margin wrapCount cursorY line).fontSize = 14 ∧
        (pdfStep pageHeight margin wrapCount cursorY line).bold = true) ∧
      (pdfHeadingKind line = 3 →
        (pdfStep pageHeight margin wrapCount cursorY line).fontSize = 12 ∧
        (pdfStep pageHeight margin wrapCount cursorY line).bold = true) ∧
      (pdfHeadingKind line = 0 →
        (pdfStep pageHeight margin wrapCount cursorY line).fontSize = 12 ∧
        (pdfStep pageHeight margin wrapCount cursorY line).bold = false) ∧
      ((pdfStep pageHeight margin wrapCount cursorY line).addedPage = true ↔
        pageHeight - margin - pdfBumpedCursor margin cursorY line <
          pdfTextHeight wrapCount line) ∧
      ((pdfStep pageHeight margin wrapCount cursorY line).addedPage = true →
        (pdfStep pageHeight margin wrapCount cursorY line).cursorAfter =
          margin + pdfTextHeight wrapCount line) ∧
      ((pdfStep pageHeight margin wrapCount cursorY line).addedPage = false →
        (pdfStep pageHeight margin wrapCount cursorY line).cursorAfter =
          pdfBumpedCursor margin cursorY line + pdfTextHeight wrapCount line) ∧
      pdfFlowFrom pageHeight margin wrapCount cursorY (line :: rest) =
        pdfFlowFrom pageHeight margin wrapCount
          (pdfStep pageHeight margin wrapCount cursorY line).cursorAfter rest := by
  intro pageHeight margin wrapCount cursorY line rest
  refine ⟨?_, ?_, ?_, ?_, ?_, ?_, ?_, ?_⟩
  · intro h
    exact ⟨by simp [pdfStep, pdfFontSize, h], by simp [pdfStep, pdfBold, h]⟩
  · intro h
    exact ⟨by simp [pdfStep, pdfFontSize, h], by simp [pdfStep, pdfBold, h]⟩
  · intro h
    exact ⟨by simp [pdfStep, pdfFontSize, h], by simp [pdfStep, pdfBold, h]⟩
  · intro h
    exact ⟨by simp [pdfStep, pdfFontSize, h], by simp [pdfStep, pdfBold, h]⟩
  · simp only [pdfStep, decide_eq_true_eq]
    constructor
    · intro h
      linarith
    · intro h
      linarith
  · intro h
    simp only [pdfStep, decide_eq_true_eq] at h
    simp only [pdfStep, if_pos h]
  · intro h
    simp only [pdfStep, decide_eq_false_iff_not] at h
    simp only [pdfStep, if_neg h]
  · simp [pdfFlowFrom]

/-- Witness for claim C5 at a level-1 heading line on a fresh page of
height 800 with margin 40, under a wrap that puts each line on one row:
the heading style applies and the page-break characterization holds. -/
theorem pdfStep_spec_witness :
    ((pdfStep 800 40 (fun _ _ => 1) 40 "# Title".data).fontSize = 18 ∧
      (pdfStep 800 40 (fun _ _ => 1) 40 "# Title".data).bold = true) ∧
    ((pdfStep 800 40 (fun _ _ => 1) 40 "# Title".data).addedPage = true ↔
      (800 : ℚ) - 40 - pdfBumpedCursor 40 40 "# Title".data <
        pdfTextHeight (fun _ _ => 1) "# Title".data) :=
  ⟨(pdfStep_spec 800 40 (fun _ _ => 1) 40 "# Title".data []).1 (by decide),
   (pdfStep_spec 800 40 (fun _ _ => 1) 40 "# Title".data []).2.2.2.2.1⟩

end Storybook
